import Mathlib

set_option maxHeartbeats 1000000

/-!
Shallow embedding of the voice/speech orchestration core of the
guided-selfie repository, and proofs of the spec's testable properties
against it.

The JavaScript source is single-threaded and event-loop driven, so each
`async` method is embedded as the pure function computing its synchronous
prefix (the code run up to the first genuine suspension point), together
with explicit small-step functions for the event listeners and timer
callbacks the method installs.  Platform engines (speech recognition,
speech synthesis, the two voice-activity detectors) appear only through
the calls issued to them and the events they deliver back.
-/

namespace GuidedSelfie

/-- Embedding of JavaScript `String.prototype.trim()`: strip leading and
trailing whitespace. -/
def jsTrim (s : String) : String :=
  ⟨List.reverse (List.dropWhile Char.isWhitespace
    (List.reverse (List.dropWhile Char.isWhitespace s.data)))⟩

/-- Embedding of JavaScript `String.prototype.toLowerCase()` (the transcripts
and command patterns involved are ASCII). -/
def jsToLower (s : String) : String :=
  ⟨s.data.map Char.toLower⟩

/-! ## SpeechRecognitionService (src/unnamed/part_001)

State machine `idle | starting | listening | stopping` with in-flight
start/stop promises merged across concurrent callers, and a 4000 ms guard
timer on `stop()`. -/

/-- Guard delay installed by `stop()`: `const STOP_TIMEOUT_MS = 4000`. -/
def STOP_TIMEOUT_MS : Nat := 4000

/-- Values of the `status` field of `SpeechRecognitionService`:
`"idle" | "starting" | "listening" | "stopping"`. -/
inductive SRStatus
| idle
| starting
| listening
| stopping
deriving DecidableEq, Repr

/-- Calls issued to the underlying platform speech-recognition engine:
`rec.start()`, `rec.stop()`, `rec.abort()`. -/
inductive EngineCall
| engineStart
| engineStop
| engineAbort
deriving DecidableEq, Repr

/-- State of a `SpeechRecognitionService` instance.  `supported` models
`this.recognition !== null`; `startingPromise` and `stoppingPromise` hold the
task id of the in-flight operation (`none` = `null`), mirroring
`this._startingPromise` / `this._stoppingPromise`. -/
structure SpeechRecognitionService where
  supported : Bool
  status : SRStatus
  startingPromise : Option Nat
  stoppingPromise : Option Nat
deriving DecidableEq, Repr

/-- Outcome of the synchronous prefix of `start()` / `stop()` entry code. -/
inductive StartOutcome
| ret (b : Bool)        -- returned an already-settled boolean
| attach (t : Nat)      -- returned the pending promise of the in-flight operation
| awaitStop (t : Nat)   -- suspended waiting for the in-flight stop to finish
| installed (t : Nat)   -- installed a fresh task `t` and called the engine
deriving DecidableEq, Repr

/-- Synchronous prefix of `async start()` (part_001, lines 455-495), branch by
branch:
* `if (!rec) return false`;
* `if (this.status === "listening") return true`;
* `if (this._startingPromise) return this._startingPromise` — a concurrent
  caller attaches to the in-flight start, no second engine call;
* `if (this._stoppingPromise) await this._stoppingPromise` — suspension;
* otherwise `_setStatus("starting")` and install the promise whose executor
  registers the start/error listeners and calls `rec.start()`.

`fresh` is the id the installed promise would get; `startThrows` says whether
`rec.start()` throws synchronously (in which case the executor runs `cleanup`,
`_setStatus("idle")` and `resolve(false)`, and the subsequent assignment still
stores the already-settled promise in `this._startingPromise`).  Returns the
outcome, the service state at the first suspension (or return), and the engine
calls issued. -/
def SpeechRecognitionService.start (s : SpeechRecognitionService)
    (fresh : Nat) (startThrows : Bool) :
    StartOutcome × SpeechRecognitionService × List EngineCall :=
  if s.supported = false then (.ret false, s, [])
  else if s.status = .listening then (.ret true, s, [])
  else
    match s.startingPromise with
    | some t => (.attach t, s, [])
    | none =>
      match s.stoppingPromise with
      | some t => (.awaitStop t, s, [])
      | none =>
        if startThrows then
          (.ret false,
            { s with status := .idle, startingPromise := some fresh },
            [.engineStart])
        else
          (.installed fresh,
            { s with status := .starting, startingPromise := some fresh },
            [.engineStart])

/-- Boolean a caller of `start()` eventually observes: `env` assigns to every
start task the value its promise resolves with, so a caller who installed task
`t` and a caller who attached to task `t` both observe `env t` (both `await`
the same promise). -/
def startObserved (env : Nat → Bool) : StartOutcome → Option Bool
| .ret b => some b
| .attach t => some (env t)
| .installed t => some (env t)
| .awaitStop _ => none

/-- Machinery installed by `stop()`.  `guardActive` is true while the
`setTimeout` guard is neither fired nor cleared; `abortIssued` records that the
guard callback ran `rec.abort()`; `result` is the resolution of the stopping
promise once settled. -/
structure StopRun where
  sess : SpeechRecognitionService
  settled : Bool
  result : Option Bool
  guardActive : Bool
  guardDelayMs : Nat
  abortIssued : Bool
deriving DecidableEq, Repr

/-- Events delivered to the machinery installed by `stop()`: the engine's
`end` and `error` events, and the firing of the guard timer. -/
inductive StopEv
| engineEnd
| engineError
| guardTimeout
deriving DecidableEq, Repr

/-- Listener and timer callbacks installed by `stop()` (part_001, lines
520-560): `onEnd` and `onError` both call `finish(true)` (an error during stop
is treated as a successful stop), which runs `cleanup` (removing the listeners
and clearing the guard), `_setStatus("idle")` and resolves; once settled,
further events are no-ops.  The guard callback only runs `rec.abort()` — it
does not itself settle the promise. -/
def stopStep (r : StopRun) : StopEv → StopRun
| .engineEnd =>
    if r.settled then r
    else
      { r with
          settled := true
          result := some true
          guardActive := false
          sess := { r.sess with status := .idle, stoppingPromise := none } }
| .engineError =>
    if r.settled then r
    else
      { r with
          settled := true
          result := some true
          guardActive := false
          sess := { r.sess with status := .idle, stoppingPromise := none } }
| .guardTimeout =>
    if r.guardActive then { r with guardActive := false, abortIssued := true }
    else r

/-- Result of the synchronous prefix of a `stop()` call. -/
inductive StopCall
| ret (b : Bool) (s : SpeechRecognitionService) (calls : List EngineCall)
| attach (t : Nat) (s : SpeechRecognitionService)
| installed (r : StopRun) (calls : List EngineCall)
deriving DecidableEq, Repr

/-- Installation part of `stop()` (part_001, everything past its merge check):
* `if (this._startingPromise && this.status === "starting")` — `rec.abort()`
  then `await this._startingPromise`; under the platform contract the abort
  makes the engine fire its error/end events, which resolve the pending start
  with `false`, clear `_startingPromise` and leave the status `"idle"`;
* then `_setStatus("stopping")` and install the promise: register the
  `end`/`error` listeners, arm the 4000 ms guard, and issue the initial engine
  call — `rec.stop()` when the status is `"listening"` or `"stopping"` (which
  it always is at this point, having just been set), else `rec.abort()`. -/
def SpeechRecognitionService.stopInstall (s : SpeechRecognitionService)
    (fresh : Nat) : StopRun × List EngineCall :=
  let preAbort : Bool :=
    s.startingPromise.isSome && decide (s.status = SRStatus.starting)
  let s₁ :=
    if preAbort then { s with status := SRStatus.idle, startingPromise := none }
    else s
  let s₂ := { s₁ with status := SRStatus.stopping, stoppingPromise := some fresh }
  let firstCall : EngineCall :=
    if s₂.status = SRStatus.listening ∨ s₂.status = SRStatus.stopping then
      .engineStop
    else .engineAbort
  ({ sess := s₂, settled := false, result := none, guardActive := true,
     guardDelayMs := STOP_TIMEOUT_MS, abortIssued := false },
   (if preAbort then [EngineCall.engineAbort] else []) ++ [firstCall])

/-- Prefix of `async stop()` (part_001, lines 502-563), branch by branch:
* `if (!rec) return false`;
* `if (this.status === "idle") return true` — no engine interaction;
* `if (this._stoppingPromise) return this._stoppingPromise` — concurrent stop
  calls merge into the one in-flight stop;
* otherwise install the stop machinery (`stopInstall` above).

`stopThrows` says whether the installed `rec.stop()` throws synchronously
(then the executor runs `cleanup`, `_setStatus("idle")`, `resolve(false)`,
and the already-settled promise is still assigned to `_stoppingPromise`). -/
def SpeechRecognitionService.stop (s : SpeechRecognitionService)
    (fresh : Nat) (stopThrows : Bool) : StopCall :=
  if s.supported = false then .ret false s []
  else if s.status = .idle then .ret true s []
  else
    match s.stoppingPromise with
    | some t => .attach t s
    | none =>
      let ic := s.stopInstall fresh
      if stopThrows then
        .ret false { ic.1.sess with status := .idle } ic.2
      else
        .installed ic.1 ic.2

/-- Concrete idle recognition session used by the witnesses. -/
def srsIdle : SpeechRecognitionService :=
  { supported := true, status := .idle, startingPromise := none,
    stoppingPromise := none }

/-- Concrete listening recognition session used by the witnesses. -/
def srsListening : SpeechRecognitionService :=
  { supported := true, status := .listening, startingPromise := none,
    stoppingPromise := none }

/-! ## TextToSpeechService (src/src/services/speech-commands.js, lines 65-261)

Promise-based `speakAsync` with the 3000 ms completion-timeout guard.  (The
repository also carries an instrumented variant of the class in
`TextToSpeechService.js`; the guard behaviour specified here is the one of the
`speech-commands.js` implementation cited by the claim.) -/

/-- Observable actions of `speakAsync`: calls into the platform synthesis
engine, arming the completion timer, and resolving the returned promise. -/
inductive TTSAct
| cancelSynth          -- this.synthesis.cancel()
| speakSynth           -- this.synthesis.speak(utterance)
| armTimer (ms : Nat)  -- timeoutId = setTimeout(..., timeout)
| resolve (b : Bool)   -- cleanup(b): resolve the promise with b
deriving DecidableEq, Repr

/-- Pending state of a `speakAsync` promise after its synchronous part ran:
`resolvedFlag` is the `resolved` guard of `cleanup`, `timerActive` is true
while the timer is neither fired nor cleared, `timerDelayMs` is
`options.timeout ?? 3000`. -/
structure SpeakRun where
  resolvedFlag : Bool
  result : Option Bool
  timerActive : Bool
  timerDelayMs : Nat
deriving DecidableEq, Repr

/-- Events delivered to a pending `speakAsync` promise: the utterance's `end`
and `error` events and the firing of the completion timer. -/
inductive TTSEv
| synthEnd
| synthError
| speakTimeout
deriving DecidableEq, Repr

/-- Enabled/supported state of the `TextToSpeechService` instance
(`this.enabled`, `this.synthesis !== null`). -/
structure TextToSpeechService where
  enabled : Bool
  supported : Bool
deriving DecidableEq, Repr

/-- Handlers installed by `speakAsync` (speech-commands.js, lines 140-162):
`utterance.onend` runs `cleanup(true)`; `utterance.onerror` runs
`cleanup(false)`; the timer callback runs `this.synthesis.cancel()` and then
`cleanup(false)`.  `cleanup` is first-settled-wins (`if (resolved) return`)
and clears the timer.  Each step returns the new state and the actions
emitted, in order. -/
def speakAsyncStep (m : SpeakRun) : TTSEv → SpeakRun × List TTSAct
| .synthEnd =>
    if m.resolvedFlag then (m, [])
    else
      ({ m with resolvedFlag := true, result := some true, timerActive := false },
       [.resolve true])
| .synthError =>
    if m.resolvedFlag then (m, [])
    else
      ({ m with resolvedFlag := true, result := some false, timerActive := false },
       [.resolve false])
| .speakTimeout =>
    if m.timerActive && !m.resolvedFlag then
      ({ m with resolvedFlag := true, result := some false, timerActive := false },
       [.cancelSynth, .resolve false])
    else (m, [])

/-- Synchronous part of `speakAsync(text, options)` (speech-commands.js,
lines 119-171):
* `if (!this.enabled || !this.synthesis || !text?.trim()) return
  Promise.resolve(false)` — no side effect;
* `this.synthesis.cancel()` — any ongoing speech is cancelled first;
* build the utterance, install the `onend`/`onerror` handlers, arm the timer
  with `options.timeout ?? 3000` ms, and call `this.synthesis.speak(...)`;
  if `speak` throws synchronously, `cleanup(false)` resolves immediately.

Returns the pending promise state (`none` when the call settled
synchronously) and the emitted actions in order. -/
def TextToSpeechService.speakAsync (tts : TextToSpeechService) (text : String)
    (timeoutOpt : Option Nat) (speakThrows : Bool) :
    Option SpeakRun × List TTSAct :=
  if !tts.enabled || !tts.supported || jsTrim text = "" then
    (none, [.resolve false])
  else
    let timeout := timeoutOpt.getD 3000
    if speakThrows then
      (none, [.cancelSynth, .armTimer timeout, .speakSynth, .resolve false])
    else
      (some { resolvedFlag := false, result := none, timerActive := true,
              timerDelayMs := timeout },
       [.cancelSynth, .armTimer timeout, .speakSynth])

/-! ## SpeechManager (src/src/services/SpeechManager.js)

The orchestrator: speak tokens, detector pausing/resumption around TTS,
detector speech-start guards, transcript processing, and the serial speak
queue. -/

/-- The two voice-activity detectors owned by the manager: the primary VAD
and the Hark fallback. -/
inductive Detector
| vad
| hark
deriving DecidableEq, Repr

/-- Observable actions of the manager's methods: stops/starts of the
collaborator services, timer manipulation, the pre-playback settle delay and
the playback itself. -/
inductive MgrAct
| stopVad                -- await this.vad.stop()
| stopHark               -- await this.hark.stop()
| stopRecognition        -- await this.recognition.stop()
| startRecognition       -- await this.recognition.start()
| cancelSpeech           -- this.cancelSpeech()
| clearResumeTimer       -- clearTimeout(this._resumeTimer)
| delay (ms : Nat)       -- await new Promise(r => setTimeout(r, ms))
| playback               -- await this.tts.speakAsync(text, options)
| armResumeTimer (ms : Nat) -- this._resumeTimer = setTimeout(..., delayMs)
deriving DecidableEq, Repr

/-- State of the `SpeechManager` instance: its own fields, plus the state of
its collaborators as the manager observes them (`this.vad.isActive()`,
`this.vad.isStarting()`, `this.hark.isActive()`, `this.recognition.isActive()`,
`this.tts.isEnabled()/isSupported()/isSpeaking()`).  `currentSpeakToken`
holds the id of the most recently minted speak token (each `Symbol('speak')`
is a fresh `Nat`); `resumeTimer` holds the delay of the pending
`_resumeDetectorsAfterTTS` timer, `none` when no timer is pending. -/
structure SpeechManager where
  wantListening : Bool            -- this._wantListening
  vadModeEnabled : Bool           -- this._vadModeEnabled
  currentSpeakToken : Option Nat  -- this._currentSpeakToken
  suspendedByTTS : Bool           -- this._suspendedByTTS
  detectorsPausedByTTS : Bool     -- this._detectorsPausedByTTS
  prevDetector : Option Detector  -- this._prevDetector
  resumeTimer : Option Nat        -- this._resumeTimer
  lastTranscriptText : String     -- this._lastTranscript.text
  lastTranscriptAt : Nat          -- this._lastTranscript.at
  expectReplyTimer : Bool         -- this._expectReplyTimer != null
  expectReplyDeadline : Nat       -- this._expectReplyDeadline
  ttsEnabled : Bool               -- this.tts.isEnabled()
  ttsSupported : Bool             -- this.tts.isSupported()
  ttsSpeaking : Bool              -- this.tts.isSpeaking()
  vadActive : Bool                -- this.vad.isActive()
  vadStarting : Bool              -- this.vad.isStarting()
  harkActive : Bool               -- this.hark.isActive()
  recActive : Bool                -- this.recognition.isActive()
deriving DecidableEq, Repr

/-- `shouldIgnoreSpeechStart()` (SpeechManager.js, lines 535-540): ignore a
detector speech-start signal if `!this._wantListening`, if
`this.isSpeakingNow()`, or if `this._currentSpeakToken` is set. -/
def SpeechManager.shouldIgnoreSpeechStart (m : SpeechManager) : Bool :=
  if !m.wantListening then true
  else if m.ttsSpeaking then true
  else if m.currentSpeakToken.isSome then true
  else false

/-- `cancelSpeech()`: `this.tts.cancel()` (playback stops), clear the speak
token and the suspended flag. -/
def SpeechManager.cancelSpeechFn (m : SpeechManager) : SpeechManager :=
  { m with
      ttsSpeaking := false
      currentSpeakToken := none
      suspendedByTTS := false }

/-- `_startListeningInternal()` (lines 468-489) on its straight-line success
path: return if already listening, cancel ongoing TTS, stop the VAD if active
(to free the microphone), then `await this.recognition.start()`. -/
def SpeechManager.startListeningInternal (m : SpeechManager) :
    SpeechManager × List MgrAct :=
  if m.recActive then (m, [])
  else
    let p₁ :=
      if m.ttsSpeaking then (m.cancelSpeechFn, [MgrAct.cancelSpeech])
      else (m, ([] : List MgrAct))
    let p₂ :=
      if p₁.1.vadActive then
        ({ p₁.1 with vadActive := false, vadStarting := false },
         [MgrAct.stopVad])
      else (p₁.1, [])
    ({ p₂.1 with recActive := true },
     p₁.2 ++ p₂.2 ++ [MgrAct.startRecognition])

/-- The `this.vad.onSpeechStart` handler installed in the constructor (lines
35-50): return immediately when `shouldIgnoreSpeechStart()`, otherwise (when
recognition is not running) stop the VAD to release the microphone and start
recognition via `_startListeningInternal()`. -/
def SpeechManager.vadOnSpeechStart (m : SpeechManager) :
    SpeechManager × List MgrAct :=
  if m.shouldIgnoreSpeechStart then (m, [])
  else if !m.recActive then
    let m₁ := { m with vadActive := false, vadStarting := false }
    let p := m₁.startListeningInternal
    (p.1, MgrAct.stopVad :: p.2)
  else (m, [])

/-- The `this.hark.onSpeechStart` handler (lines 59-70): the same guard, then
`await this.recognition.start()` directly. -/
def SpeechManager.harkOnSpeechStart (m : SpeechManager) :
    SpeechManager × List MgrAct :=
  if m.shouldIgnoreSpeechStart then (m, [])
  else if !m.recActive then
    ({ m with recActive := true }, [MgrAct.startRecognition])
  else (m, [])

/-- `_pauseDetectorsForTTS()` (lines 121-137): clear a pending resume timer,
set `_detectorsPausedByTTS`, record which detector was previously active
(VAD, else Hark, else VAD when VAD mode is merely enabled, else none), then
`await this.vad.stop()`, `await this.hark.stop()`, and finally
`await this._stopListeningInternal({ markSuspended: true })` — the detectors
are stopped first and the recognition session last. -/
def SpeechManager.pauseDetectorsForTTS (m : SpeechManager) :
    SpeechManager × List MgrAct :=
  let p₀ :=
    if m.resumeTimer.isSome then
      ({ m with resumeTimer := none }, [MgrAct.clearResumeTimer])
    else (m, ([] : List MgrAct))
  let m₁ := { p₀.1 with detectorsPausedByTTS := true }
  let prev : Option Detector :=
    if m₁.vadActive then some .vad
    else if m₁.harkActive then some .hark
    else if m₁.vadModeEnabled then some .vad
    else none
  let m₂ := { m₁ with prevDetector := prev }
  let m₃ := { m₂ with vadActive := false, vadStarting := false }
  let m₄ := { m₃ with harkActive := false }
  let m₅ := { m₄ with recActive := false, suspendedByTTS := true }
  (m₅, p₀.2 ++ [MgrAct.stopVad, MgrAct.stopHark, MgrAct.stopRecognition])

/-- `_resumeDetectorsAfterTTS(delayMs = 400)` up to arming the timer (lines
139-170): clear a pending resume timer and install a new one after `delayMs`
milliseconds (the timer body, which restarts the recorded detector, runs
later). -/
def SpeechManager.resumeDetectorsAfterTTS (m : SpeechManager) (delayMs : Nat) :
    SpeechManager × List MgrAct :=
  let p₀ :=
    if m.resumeTimer.isSome then
      ({ m with resumeTimer := none }, [MgrAct.clearResumeTimer])
    else (m, ([] : List MgrAct))
  ({ p₀.1 with resumeTimer := some delayMs },
   p₀.2 ++ [MgrAct.armResumeTimer delayMs])

/-- Token mint at the start of `speak()` (lines 195-197):
`const token = Symbol('speak'); this._currentSpeakToken = token`. -/
def SpeechManager.speakMint (m : SpeechManager) (tok : Nat) : SpeechManager :=
  { m with currentSpeakToken := some tok }

/-- Completion check of `speak()` (lines 206-209), run after
`await this.tts.speakAsync(...)` resolves: only if this call's token is still
the current one, clear it and schedule detector resumption after 400 ms;
a superseded call performs nothing. -/
def SpeechManager.speakCompletion (m : SpeechManager) (tok : Nat) :
    SpeechManager × List MgrAct :=
  if m.currentSpeakToken = some tok then
    SpeechManager.resumeDetectorsAfterTTS
      { m with currentSpeakToken := none } 400
  else (m, [])

/-- `speak(text, options)` (lines 186-212) on its straight-line run (no
second `speak` call interleaves before this one completes):
* read `detectorWasActive = vad.isActive() || vad.isStarting() ||
  hark.isActive()`;
* return `false` with no side effect when TTS is disabled or unsupported or
  the text trims to empty;
* mint the token, `await this._pauseDetectorsForTTS()`, wait
  `detectorWasActive ? 800 : 500` ms, `await this.tts.speakAsync(...)`
  (`playbackOk` is the boolean it resolves with), then run the completion
  check.  Returns the final state, the action trace, and the returned
  boolean. -/
def SpeechManager.speak (m : SpeechManager) (text : String) (tok : Nat)
    (playbackOk : Bool) : SpeechManager × List MgrAct × Bool :=
  let detectorWasActive := m.vadActive || m.vadStarting || m.harkActive
  if !m.ttsEnabled || !m.ttsSupported || jsTrim text = "" then (m, [], false)
  else
    let m₁ := m.speakMint tok
    let p₂ := m₁.pauseDetectorsForTTS
    let preTTSDelay := if detectorWasActive then 800 else 500
    let m₃ := { p₂.1 with ttsSpeaking := false }  -- playback has resolved
    let p₄ := m₃.speakCompletion tok
    (p₄.1, p₂.2 ++ [MgrAct.delay preTTSDelay, MgrAct.playback] ++ p₄.2,
     playbackOk)

/-- Command patterns registered in `this.commandHandlers`: a string pattern
matches by `text.includes(pattern.toLowerCase())`; a RegExp pattern matches
by `pattern.test(text)` and is embedded as an opaque test predicate. -/
inductive CommandPattern
| str (pat : String)
| regex (test : String → Bool)

/-- JavaScript `text.includes(pat)`: `pat` occurs contiguously in `text`. -/
def jsIncludes (text pat : String) : Bool :=
  decide (pat.data <:+: text.data)

/-- Pattern matching step of `processCommand` (lines 370-377). -/
def patMatches (p : CommandPattern) (text : String) : Bool :=
  match p with
  | .str pat => jsIncludes text (jsToLower pat)
  | .regex test => test text

/-- Dispatch outcome of one `processCommand` call: whether the transcript
passed the guards at all, which registered handlers fired (by index), and
whether the raw transcript was forwarded to the LLM intent collaborator via
the `voice:command` event. -/
structure DispatchResult where
  dispatched : Bool
  firedHandlers : List Nat
  llmForwarded : Bool
deriving DecidableEq, Repr

/-- Expect-reply entry of `processCommand` (lines 350-353): when the
expect-reply window is active (`_expectReplyTimer != null && Date.now() <=
_expectReplyDeadline`), clear the window and stop recognition, then fall
through. -/
def SpeechManager.expectReplyEntry (m : SpeechManager) (now : Nat) :
    SpeechManager :=
  if m.expectReplyTimer && decide (now ≤ m.expectReplyDeadline) then
    { m with
        expectReplyTimer := false
        expectReplyDeadline := 0
        recActive := false }
  else m

/-- `processCommand(transcript)` (lines 349-395): expect-reply entry; return
with no dispatch while TTS is speaking or a speak token is outstanding (echo
suppression); lowercase and trim the transcript; return with no dispatch when
it equals the previous transcript and arrived less than 1200 ms after it;
otherwise record it as the last transcript, fire every matching handler, and
forward the raw transcript to the intent collaborator when none matched.
Handler bodies are external and their effects on the manager are not part of
this step.  `handlers` passes the contents of `this.commandHandlers` in
iteration order; `now` is `Date.now()`. -/
def SpeechManager.processCommand (m : SpeechManager)
    (handlers : List CommandPattern) (transcript : String) (now : Nat) :
    SpeechManager × DispatchResult :=
  let m₀ := m.expectReplyEntry now
  if m₀.ttsSpeaking || m₀.currentSpeakToken.isSome then
    (m₀, { dispatched := false, firedHandlers := [], llmForwarded := false })
  else
    let text := jsTrim (jsToLower transcript)
    if text = m₀.lastTranscriptText ∧
        ((now : Int) - (m₀.lastTranscriptAt : Int) < 1200) then
      (m₀, { dispatched := false, firedHandlers := [], llmForwarded := false })
    else
      let m₁ := { m₀ with lastTranscriptText := text, lastTranscriptAt := now }
      let fired :=
        (handlers.enum.filter (fun p => patMatches p.2 text)).map Prod.fst
      (m₁, { dispatched := true, firedHandlers := fired,
             llmForwarded := fired.isEmpty })

/-- One `speakQueued(text, options)` call as an element of the serial queue:
`throws` — whether the inner `this.speak(...)` rejects; `value` — the boolean
it otherwise resolves with; `duration` — how long it takes to settle. -/
structure QueuedSpeak where
  id : Nat
  throws : Bool
  value : Bool
  duration : Nat
deriving DecidableEq, Repr

/-- Value one queue item settles with: `run` wraps the `speak` call in
`try ... catch { return false }`, so a rejection becomes a fulfilled `false`
and never propagates down the chain. -/
def queuedResult (q : QueuedSpeak) : Bool :=
  if q.throws then false else q.value

/-- Execution record of one queue item: when its `run` started, when it
settled, and with which boolean. -/
structure QueueRun where
  id : Nat
  startAt : Nat
  doneAt : Nat
  result : Bool
deriving DecidableEq, Repr

/-- Denotation of the promise chain built by `speakQueued` (lines 220-232):
`this._speakQueue = this._speakQueue.catch(() => {}).then(run)`.  `.then`
defers each `run` until the previous chain promise has settled, and the
`.catch(() => {})` prefix converts a rejection of the previous link into
fulfillment, so the next item runs regardless of earlier failures.
Executing the queue built from back-to-back calls therefore runs the items
one after another, each `run` starting exactly when the previous one
settled. -/
def runSpeakQueue : List QueuedSpeak → Nat → List QueueRun
| [], _ => []
| q :: rest, t =>
  { id := q.id, startAt := t, doneAt := t + q.duration,
    result := queuedResult q } :: runSpeakQueue rest (t + q.duration)

/-- Concrete manager state used by witnesses: voice mode on, VAD actively
running, TTS enabled and idle, no outstanding token or timer. -/
def mgrBase : SpeechManager :=
  { wantListening := true, vadModeEnabled := true, currentSpeakToken := none,
    suspendedByTTS := false, detectorsPausedByTTS := false,
    prevDetector := none, resumeTimer := none, lastTranscriptText := "",
    lastTranscriptAt := 0, expectReplyTimer := false, expectReplyDeadline := 0,
    ttsEnabled := true, ttsSupported := true, ttsSpeaking := false,
    vadActive := true, vadStarting := false, harkActive := false,
    recActive := false }

/-- C1: if `start()` is called while a previous `start()` is still in flight,
the second call returns the very same pending result as the first and no
second platform start call is issued; both callers observe the same resolved
boolean; and a `start()` called while the session is already listening
resolves immediately `true`. -/
theorem claim_C1 (s : SpeechRecognitionService) (env : Nat → Bool)
    (ta tb : Nat)
    (hsup : s.supported = true) (hst : s.status = .idle)
    (h₁ : s.startingPromise = none) (h₂ : s.stoppingPromise = none) :
    (s.start ta false
      = (.installed ta,
         { s with status := .starting, startingPromise := some ta },
         [.engineStart])) ∧
    (∀ s' : SpeechRecognitionService, s'.supported = true →
      s'.status = .starting → s'.startingPromise = some ta →
      s'.start tb false = (.attach ta, s', [])) ∧
    startObserved env (.attach ta) = startObserved env (.installed ta) ∧
    (∀ s' : SpeechRecognitionService, s'.supported = true →
      s'.status = .listening → s'.start tb false = (.ret true, s', [])) := by
  refine ⟨?_, ?_, rfl, ?_⟩
  · simp [SpeechRecognitionService.start, hsup, hst, h₁, h₂]
  · intro s' hsup' hst' hp'
    simp [SpeechRecognitionService.start, hsup', hst', hp']
  · intro s' hsup' hst'
    simp [SpeechRecognitionService.start, hsup', hst']

/-- Witness for C1, instantiated at the concrete idle session, task ids 1 and
2, and the environment resolving every start task with `true`. -/
theorem claim_C1_witness :
    srsIdle.supported = true ∧ srsIdle.status = .idle ∧
    srsIdle.startingPromise = none ∧ srsIdle.stoppingPromise = none ∧
    ((srsIdle.start 1 false
      = (.installed 1,
         { srsIdle with status := .starting, startingPromise := some 1 },
         [.engineStart])) ∧
    (∀ s' : SpeechRecognitionService, s'.supported = true →
      s'.status = .starting → s'.startingPromise = some 1 →
      s'.start 2 false = (.attach 1, s', [])) ∧
    startObserved (fun _ => true) (.attach 1)
      = startObserved (fun _ => true) (.installed 1) ∧
    (∀ s' : SpeechRecognitionService, s'.supported = true →
      s'.status = .listening → s'.start 2 false = (.ret true, s', []))) :=
  ⟨rfl, rfl, rfl, rfl, claim_C1 srsIdle (fun _ => true) 1 2 rfl rfl rfl rfl⟩

/-- C7: `stop()` on an already-idle session resolves `true` immediately,
leaves the state unchanged and issues no call to the platform engine at all
(whether or not the engine would throw). -/
theorem claim_C7 (s : SpeechRecognitionService) (fresh : Nat) (th : Bool)
    (hsup : s.supported = true) (hst : s.status = .idle) :
    s.stop fresh th = .ret true s [] := by
  simp [SpeechRecognitionService.stop, hsup, hst]

/-- Witness for C7 at the concrete idle session. -/
theorem claim_C7_witness :
    srsIdle.supported = true ∧ srsIdle.status = .idle ∧
    srsIdle.stop 5 false = .ret true srsIdle [] :=
  ⟨rfl, rfl, claim_C7 srsIdle 5 false rfl rfl⟩

/-- C4: a `stop()` call on a non-idle session either merges into the one
in-flight stop, or installs machinery whose guard timer is armed at 4000 ms;
when the engine never emits its natural `end` event, the guard fires and
force-aborts the engine, after which the engine's response (an `end` or an
`error` event) settles the stop with `true` and the session idle — and once
the guard has fired no event can ever settle the stop with `false`. -/
theorem claim_C4 (s : SpeechRecognitionService) (fresh : Nat) (e : StopEv)
    (hsup : s.supported = true) (hst : s.status ≠ .idle)
    (he : e = .engineEnd ∨ e = .engineError) :
    (∀ t, s.stoppingPromise = some t → s.stop fresh false = .attach t s) ∧
    (s.stoppingPromise = none →
      s.stop fresh false
        = .installed (s.stopInstall fresh).1 (s.stopInstall fresh).2 ∧
      (s.stopInstall fresh).1.guardDelayMs = 4000 ∧
      (s.stopInstall fresh).1.sess.status = .stopping ∧
      (s.stopInstall fresh).1.settled = false ∧
      (stopStep (s.stopInstall fresh).1 .guardTimeout).abortIssued = true ∧
      (stopStep (stopStep (s.stopInstall fresh).1 .guardTimeout) e).result
        = some true ∧
      (stopStep (stopStep (s.stopInstall fresh).1 .guardTimeout) e).sess.status
        = .idle ∧
      (∀ ev,
        (stopStep (stopStep (s.stopInstall fresh).1 .guardTimeout) ev).result
          ≠ some false)) := by
  constructor
  · intro t ht
    simp [SpeechRecognitionService.stop, hsup, hst, ht]
  · intro hnone
    refine ⟨?_, rfl, rfl, rfl, ?_, ?_, ?_, ?_⟩
    · simp [SpeechRecognitionService.stop, hsup, hst, hnone]
    · simp [stopStep, SpeechRecognitionService.stopInstall]
    · rcases he with he | he <;> subst he <;>
        simp [stopStep, SpeechRecognitionService.stopInstall]
    · rcases he with he | he <;> subst he <;>
        simp [stopStep, SpeechRecognitionService.stopInstall]
    · intro ev
      rcases he with he | he <;> subst he <;>
        cases ev <;> simp [stopStep, SpeechRecognitionService.stopInstall]

/-- Witness for C4 at the concrete listening session, with the engine
answering the forced abort with its `end` event. -/
theorem claim_C4_witness :
    srsListening.supported = true ∧ srsListening.status ≠ .idle ∧
    (StopEv.engineEnd = StopEv.engineEnd
      ∨ StopEv.engineEnd = StopEv.engineError) ∧
    ((∀ t, srsListening.stoppingPromise = some t →
        srsListening.stop 5 false = .attach t srsListening) ∧
     (srsListening.stoppingPromise = none →
        srsListening.stop 5 false
          = .installed (srsListening.stopInstall 5).1
              (srsListening.stopInstall 5).2 ∧
        (srsListening.stopInstall 5).1.guardDelayMs = 4000 ∧
        (srsListening.stopInstall 5).1.sess.status = .stopping ∧
        (srsListening.stopInstall 5).1.settled = false ∧
        (stopStep (srsListening.stopInstall 5).1 .guardTimeout).abortIssued
          = true ∧
        (stopStep (stopStep (srsListening.stopInstall 5).1 .guardTimeout)
          .engineEnd).result = some true ∧
        (stopStep (stopStep (srsListening.stopInstall 5).1 .guardTimeout)
          .engineEnd).sess.status = .idle ∧
        (∀ ev,
          (stopStep (stopStep (srsListening.stopInstall 5).1 .guardTimeout)
            ev).result ≠ some false))) :=
  ⟨rfl, by decide, Or.inl rfl,
   claim_C4 srsListening 5 .engineEnd rfl (by decide) (Or.inl rfl)⟩

/-- C5: with the default options (no `timeout` override), a `speakAsync` call
that passes the enabled/supported/non-empty checks arms its completion timer
at 3000 ms; if the synthesis engine never emits the utterance's `end` event,
the timer fires at that deadline, actively cancels the outstanding playback
and only then resolves the promise `false`.  A call made while TTS is
disabled or unsupported or with whitespace-only text resolves `false` with no
engine interaction, and a platform `error` event likewise resolves the
pending promise `false`. -/
theorem claim_C5 (tts : TextToSpeechService) (text : String)
    (hen : tts.enabled = true) (hsup : tts.supported = true)
    (htext : jsTrim text ≠ "") :
    (∃ m, tts.speakAsync text none false
        = (some m, [.cancelSynth, .armTimer 3000, .speakSynth]) ∧
      m.timerDelayMs = 3000 ∧ m.resolvedFlag = false ∧
      speakAsyncStep m .speakTimeout
        = ({ m with
               resolvedFlag := true
               result := some false
               timerActive := false },
           [.cancelSynth, .resolve false]) ∧
      speakAsyncStep m .synthError
        = ({ m with
               resolvedFlag := true
               result := some false
               timerActive := false },
           [.resolve false])) ∧
    (∀ tts' : TextToSpeechService, ∀ text' : String,
      tts'.enabled = false ∨ tts'.supported = false ∨ jsTrim text' = "" →
      tts'.speakAsync text' none false = (none, [.resolve false])) := by
  constructor
  · refine
      ⟨{ resolvedFlag := false, result := none, timerActive := true,
         timerDelayMs := 3000 }, ?_, rfl, rfl, ?_, ?_⟩
    · simp [TextToSpeechService.speakAsync, hen, hsup, htext]
    · simp [speakAsyncStep]
    · simp [speakAsyncStep]
  · rintro tts' text' (h | h | h) <;>
      simp [TextToSpeechService.speakAsync, h]

/-- Witness for C5 with an enabled, supported service and the text
`photo captured`. -/
theorem claim_C5_witness :
    (TextToSpeechService.enabled { enabled := true, supported := true } = true) ∧
    (TextToSpeechService.supported { enabled := true, supported := true } = true) ∧
    (jsTrim "photo captured" ≠ "") ∧
    ((∃ m, TextToSpeechService.speakAsync { enabled := true, supported := true }
            "photo captured" none false
          = (some m, [.cancelSynth, .armTimer 3000, .speakSynth]) ∧
        m.timerDelayMs = 3000 ∧ m.resolvedFlag = false ∧
        speakAsyncStep m .speakTimeout
          = ({ m with
                 resolvedFlag := true
                 result := some false
                 timerActive := false },
             [.cancelSynth, .resolve false]) ∧
        speakAsyncStep m .synthError
          = ({ m with
                 resolvedFlag := true
                 result := some false
                 timerActive := false },
             [.resolve false])) ∧
      (∀ tts' : TextToSpeechService, ∀ text' : String,
        tts'.enabled = false ∨ tts'.supported = false ∨ jsTrim text' = "" →
        tts'.speakAsync text' none false = (none, [.resolve false]))) :=
  ⟨rfl, rfl, by decide,
   claim_C5 { enabled := true, supported := true } "photo captured" rfl rfl
     (by decide)⟩

/-- Fields of the manager that the expect-reply entry of `processCommand`
never touches (it only clears the reply window and stops recognition). -/
theorem expectReplyEntry_fields (m : SpeechManager) (now : Nat) :
    (m.expectReplyEntry now).ttsSpeaking = m.ttsSpeaking ∧
    (m.expectReplyEntry now).currentSpeakToken = m.currentSpeakToken ∧
    (m.expectReplyEntry now).lastTranscriptText = m.lastTranscriptText ∧
    (m.expectReplyEntry now).lastTranscriptAt = m.lastTranscriptAt := by
  unfold SpeechManager.expectReplyEntry
  split <;> simp

/-- A `processCommand` call that is not speaking-suppressed and not a
duplicate dispatches the transcript and records it as the last transcript,
leaving the speaking/token fields unchanged. -/
theorem processCommand_dispatches (m : SpeechManager)
    (handlers : List CommandPattern) (tr : String) (now : Nat)
    (hsp : m.ttsSpeaking = false) (htok : m.currentSpeakToken = none)
    (hded : ¬ (jsTrim (jsToLower tr) = m.lastTranscriptText ∧
      ((now : Int) - (m.lastTranscriptAt : Int) < 1200))) :
    (m.processCommand handlers tr now).2.dispatched = true ∧
    (m.processCommand handlers tr now).1.lastTranscriptText
      = jsTrim (jsToLower tr) ∧
    (m.processCommand handlers tr now).1.lastTranscriptAt = now ∧
    (m.processCommand handlers tr now).1.ttsSpeaking = false ∧
    (m.processCommand handlers tr now).1.currentSpeakToken = none := by
  obtain ⟨e1, e2, e3, e4⟩ := expectReplyEntry_fields m now
  unfold SpeechManager.processCommand
  simp only [e1, e2, e3, e4]
  simp [hsp, htok, hded]

/-- A `processCommand` call whose normalized transcript equals the previous
one and arrives less than 1200 ms after it is dropped: no handler fires, no
forwarding to the intent collaborator. -/
theorem processCommand_dropped (m : SpeechManager)
    (handlers : List CommandPattern) (tr : String) (now : Nat)
    (hsp : m.ttsSpeaking = false) (htok : m.currentSpeakToken = none)
    (hdup : jsTrim (jsToLower tr) = m.lastTranscriptText)
    (hwin : (now : Int) - (m.lastTranscriptAt : Int) < 1200) :
    (m.processCommand handlers tr now).2
      = { dispatched := false, firedHandlers := [], llmForwarded := false } := by
  obtain ⟨e1, e2, e3, e4⟩ := expectReplyEntry_fields m now
  unfold SpeechManager.processCommand
  simp [e1, e2, hsp, htok, e3, e4, hdup, hwin]

/-- C2: when `speak(B)` is minted before `speak(A)`'s playback resolves, only
B's completion performs the post-speech resumption: A's completion finds its
token superseded and changes nothing (it neither clears the current token nor
schedules resumption), whichever order the two completions run in, while B's
completion clears the token and schedules detector resumption after 400 ms. -/
theorem claim_C2 (m : SpeechManager) (ta tb : Nat) (hne : ta ≠ tb)
    (hrt : m.resumeTimer = none) :
    ((m.speakMint ta).speakMint tb).speakCompletion ta
      = ((m.speakMint ta).speakMint tb, []) ∧
    ((m.speakMint ta).speakMint tb).currentSpeakToken = some tb ∧
    (((m.speakMint ta).speakMint tb).speakCompletion tb).1.currentSpeakToken
      = none ∧
    (((m.speakMint ta).speakMint tb).speakCompletion tb).2
      = [MgrAct.armResumeTimer 400] ∧
    ((((m.speakMint ta).speakMint tb).speakCompletion tb).1).speakCompletion ta
      = ((((m.speakMint ta).speakMint tb).speakCompletion tb).1, []) := by
  have hne' : tb ≠ ta := fun h => hne h.symm
  refine ⟨?_, rfl, ?_, ?_, ?_⟩ <;>
    simp [SpeechManager.speakCompletion, SpeechManager.speakMint,
      SpeechManager.resumeDetectorsAfterTTS, hrt, hne']

/-- Witness for C2 at the base state with tokens 1 and 2. -/
theorem claim_C2_witness :
    (1 : Nat) ≠ 2 ∧ mgrBase.resumeTimer = none ∧
    (((mgrBase.speakMint 1).speakMint 2).speakCompletion 1
      = ((mgrBase.speakMint 1).speakMint 2, []) ∧
    ((mgrBase.speakMint 1).speakMint 2).currentSpeakToken = some 2 ∧
    (((mgrBase.speakMint 1).speakMint 2).speakCompletion 2).1.currentSpeakToken
      = none ∧
    (((mgrBase.speakMint 1).speakMint 2).speakCompletion 2).2
      = [MgrAct.armResumeTimer 400] ∧
    ((((mgrBase.speakMint 1).speakMint 2).speakCompletion 2).1).speakCompletion 1
      = ((((mgrBase.speakMint 1).speakMint 2).speakCompletion 2).1, [])) :=
  ⟨by decide, rfl, claim_C2 mgrBase 1 2 (by decide) rfl⟩

/-- C3: a detector speech-start signal (from the VAD or from the Hark
fallback) that arrives while a speak token is outstanding, or while synthesis
is speaking, or while listening is not wanted, is ignored entirely: the
handlers change no state and issue no action, so no recognition session is
opened as a result of the signal. -/
theorem claim_C3 (m : SpeechManager)
    (h : m.currentSpeakToken ≠ none ∨ m.ttsSpeaking = true ∨
      m.wantListening = false) :
    m.vadOnSpeechStart = (m, []) ∧ m.harkOnSpeechStart = (m, []) := by
  have hig : m.shouldIgnoreSpeechStart = true := by
    unfold SpeechManager.shouldIgnoreSpeechStart
    rcases h with h | h | h
    · have hs : m.currentSpeakToken.isSome = true :=
        Option.ne_none_iff_isSome.mp h
      cases hw : m.wantListening <;> cases ht : m.ttsSpeaking <;> simp [hs]
    · cases hw : m.wantListening <;> simp [h]
    · simp [h]
  constructor <;>
    simp [SpeechManager.vadOnSpeechStart, SpeechManager.harkOnSpeechStart, hig]

/-- Witness for C3: base state with an outstanding speak token. -/
theorem claim_C3_witness :
    (({ mgrBase with currentSpeakToken := some 7 } :
        SpeechManager).currentSpeakToken ≠ none ∨
      ({ mgrBase with currentSpeakToken := some 7 } :
        SpeechManager).ttsSpeaking = true ∨
      ({ mgrBase with currentSpeakToken := some 7 } :
        SpeechManager).wantListening = false) ∧
    (({ mgrBase with currentSpeakToken := some 7 } :
        SpeechManager).vadOnSpeechStart
      = ({ mgrBase with currentSpeakToken := some 7 }, []) ∧
     ({ mgrBase with currentSpeakToken := some 7 } :
        SpeechManager).harkOnSpeechStart
      = ({ mgrBase with currentSpeakToken := some 7 }, [])) :=
  ⟨Or.inl (by decide),
   claim_C3 { mgrBase with currentSpeakToken := some 7 } (Or.inl (by decide))⟩

/-- Formalization of what claim C6 asserts about a `speak()` run in which a
detector had been actively running: the recognition stop precedes both
detector stops, and the post-playback resumption is scheduled with a delay of
about 800 ms rather than 400 ms. -/
def claimC6Order (tr : List MgrAct) : Prop :=
  tr.indexOf MgrAct.stopRecognition < tr.indexOf MgrAct.stopVad ∧
  tr.indexOf MgrAct.stopRecognition < tr.indexOf MgrAct.stopHark ∧
  MgrAct.armResumeTimer 800 ∈ tr

/-- Counterexample to C6: at a state whose VAD is actively running, `speak`
stops the VAD first, the Hark fallback second and the recognition session
last (not recognition first), and schedules resumption after 400 ms (the
800 ms figure is the pre-playback settle delay, not the resumption delay). -/
theorem claim_C6_counterexample :
    (mgrBase.speak "hello" 1 true).2.1
      = [MgrAct.stopVad, MgrAct.stopHark, MgrAct.stopRecognition,
         MgrAct.delay 800, MgrAct.playback, MgrAct.armResumeTimer 400] ∧
    (mgrBase.vadActive || mgrBase.vadStarting || mgrBase.harkActive) = true ∧
    ¬ claimC6Order (mgrBase.speak "hello" 1 true).2.1 := by
  refine ⟨by decide, by decide, ?_⟩
  intro hcl
  rcases hcl with ⟨h1, -, -⟩
  revert h1
  decide

/-- C6 as amended: a `speak()` call that passes the enabled/supported/
non-empty checks stops the VAD first, the Hark fallback second and the
recognition session last, awaits that teardown, waits 800 ms before starting
playback when a detector had been actively running or starting (500 ms
otherwise), and after playback resolves with its token still current
schedules detector resumption after a fixed 400 ms settle delay; the call
returns the boolean playback resolved with. -/
theorem claim_C6_amended (m : SpeechManager) (text : String) (tok : Nat)
    (ok : Bool) (hen : m.ttsEnabled = true) (hsup : m.ttsSupported = true)
    (htext : jsTrim text ≠ "") (hrt : m.resumeTimer = none) :
    (m.speak text tok ok).2.1
      = [MgrAct.stopVad, MgrAct.stopHark, MgrAct.stopRecognition,
         MgrAct.delay
           (if m.vadActive || m.vadStarting || m.harkActive then 800 else 500),
         MgrAct.playback, MgrAct.armResumeTimer 400] ∧
    (m.speak text tok ok).2.2 = ok := by
  constructor <;>
    simp [SpeechManager.speak, SpeechManager.speakMint,
      SpeechManager.pauseDetectorsForTTS, SpeechManager.speakCompletion,
      SpeechManager.resumeDetectorsAfterTTS, hen, hsup, htext, hrt]

/-- Witness for the amended C6 at the base state (VAD actively running). -/
theorem claim_C6_amended_witness :
    mgrBase.ttsEnabled = true ∧ mgrBase.ttsSupported = true ∧
    jsTrim "photo saved" ≠ "" ∧ mgrBase.resumeTimer = none ∧
    ((mgrBase.speak "photo saved" 3 true).2.1
      = [MgrAct.stopVad, MgrAct.stopHark, MgrAct.stopRecognition,
         MgrAct.delay
           (if mgrBase.vadActive || mgrBase.vadStarting || mgrBase.harkActive
            then 800 else 500),
         MgrAct.playback, MgrAct.armResumeTimer 400] ∧
     (mgrBase.speak "photo saved" 3 true).2.2 = true) :=
  ⟨rfl, rfl, by decide, rfl,
   claim_C6_amended mgrBase "photo saved" 3 true rfl rfl (by decide) rfl⟩

/-- C10: `speak()` with TTS disabled, or unsupported, or an empty/whitespace
text returns `false` with no side effect whatsoever: no token is minted, no
detector or recognition stop is issued, no delay or timer is installed, and
the state is unchanged. -/
theorem claim_C10 (m : SpeechManager) (text : String) (tok : Nat) (ok : Bool)
    (h : m.ttsEnabled = false ∨ m.ttsSupported = false ∨ jsTrim text = "") :
    m.speak text tok ok = (m, [], false) := by
  rcases h with h | h | h <;> simp [SpeechManager.speak, h]

/-- Witness for C10: TTS disabled, and separately a whitespace-only text. -/
theorem claim_C10_witness :
    (({ mgrBase with ttsEnabled := false } : SpeechManager).ttsEnabled = false ∨
      ({ mgrBase with ttsEnabled := false } : SpeechManager).ttsSupported = false ∨
      jsTrim "hello" = "") ∧
    ({ mgrBase with ttsEnabled := false } : SpeechManager).speak "hello" 1 true
      = ({ mgrBase with ttsEnabled := false }, [], false) :=
  ⟨Or.inl rfl,
   claim_C10 { mgrBase with ttsEnabled := false } "hello" 1 true (Or.inl rfl)⟩

/-- C9: two transcripts that are identical after lowercasing and trimming and
arrive within the 1200 ms window produce exactly one dispatch: the first one
(assuming it is itself not an echo of an even earlier transcript) fires
handlers or forwards to the intent collaborator, and the second is dropped
with no handler firing and no forwarding. -/
theorem claim_C9 (handlers : List CommandPattern) (m : SpeechManager)
    (tr1 tr2 : String) (n1 n2 : Nat)
    (hsp : m.ttsSpeaking = false) (htok : m.currentSpeakToken = none)
    (heq : jsTrim (jsToLower tr2) = jsTrim (jsToLower tr1))
    (_hle : n1 ≤ n2) (hwin : n2 - n1 < 1200)
    (hfresh : ¬ (jsTrim (jsToLower tr1) = m.lastTranscriptText ∧
      ((n1 : Int) - (m.lastTranscriptAt : Int) < 1200))) :
    (m.processCommand handlers tr1 n1).2.dispatched = true ∧
    ((m.processCommand handlers tr1 n1).1.processCommand handlers tr2 n2).2
      = { dispatched := false, firedHandlers := [], llmForwarded := false } := by
  obtain ⟨hd, htxt, hat, hsp₁, htok₁⟩ :=
    processCommand_dispatches m handlers tr1 n1 hsp htok hfresh
  refine ⟨hd, ?_⟩
  apply processCommand_dropped _ handlers tr2 n2 hsp₁ htok₁
  · rw [htxt, heq]
  · rw [hat]
    have : (n2 : Int) - (n1 : Int) < 1200 := by
      omega
    exact this

/-- Witness for C9: the transcript `Take Photo` delivered twice, 1000 ms
apart, at the base state. -/
theorem claim_C9_witness :
    mgrBase.ttsSpeaking = false ∧ mgrBase.currentSpeakToken = none ∧
    jsTrim (jsToLower "Take Photo") = jsTrim (jsToLower "take photo") ∧
    (1000 : Nat) ≤ 2000 ∧ (2000 - 1000 : Nat) < 1200 ∧
    (¬ (jsTrim (jsToLower "take photo") = mgrBase.lastTranscriptText ∧
      ((1000 : Int) - (mgrBase.lastTranscriptAt : Int) < 1200))) ∧
    ((mgrBase.processCommand [CommandPattern.str "take"] "take photo" 1000).2.dispatched
        = true ∧
      ((mgrBase.processCommand [CommandPattern.str "take"] "take photo" 1000).1.processCommand
          [CommandPattern.str "take"] "Take Photo" 2000).2
        = { dispatched := false, firedHandlers := [], llmForwarded := false }) :=
  ⟨rfl, rfl, by decide, by decide, by decide, by decide,
   claim_C9 [CommandPattern.str "take"] mgrBase "take photo" "Take Photo"
     1000 2000 rfl rfl (by decide) (by decide) (by decide) (by decide)⟩

/-- C8: executing the serial queue built from back-to-back `speakQueued`
calls plays the items strictly in call (FIFO) order with no interleaving —
each item starts exactly when the previous one settled, however slow the
previous item was — and a failing item settles with `false` without
preventing any later item from running. -/
theorem claim_C8 (items : List QueuedSpeak) (t : Nat) :
    (runSpeakQueue items t).map QueueRun.id = items.map QueuedSpeak.id ∧
    List.Chain' (fun a b => b.startAt = a.doneAt) (runSpeakQueue items t) ∧
    (runSpeakQueue items t).map QueueRun.result = items.map queuedResult := by
  refine ⟨?_, ?_, ?_⟩
  · induction items generalizing t with
    | nil => simp [runSpeakQueue]
    | cons q rest ih => simp [runSpeakQueue, ih]
  · induction items generalizing t with
    | nil => simp [runSpeakQueue]
    | cons q rest ih =>
      cases rest with
      | nil => simp [runSpeakQueue]
      | cons q2 rest2 =>
        rw [runSpeakQueue, runSpeakQueue, List.chain'_cons]
        refine ⟨rfl, ?_⟩
        have h := ih (t + q.duration)
        rw [runSpeakQueue] at h
        exact h
  · induction items generalizing t with
    | nil => simp [runSpeakQueue]
    | cons q rest ih => simp [runSpeakQueue, ih]

end GuidedSelfie
